import Mathlib

/-!
Shallow embedding of `src/main.py` (AI Test Case Generator with Jira
Integration).  The Python program is Streamlit glue around four pieces of
logic: the ticket normalizer `get_ticket_details`, the prompt template inside
`generate_test_cases`, the session store `st.session_state.generated_test_cases`
(a Python dict), and two sequential batch loops in the "Batch Processing" tab.

Modelling conventions:
* Python strings are Lean `String`; `str.split`, `str.strip`, `str.lower` are
  re-implemented structurally on the underlying character lists so that they
  compute by kernel reduction.
* A raw Jira issue is a record of `Option`-valued fields: `none` means the
  field is missing from the record (in the Python client an absent or null
  attribute, whose unguarded access raises and is caught by the surrounding
  `except`, making `get_ticket_details` return `None`).  For `description`
  the code guards the value itself (`or "No description provided"`), so
  `none` there models a null/absent description value and maps to the
  placeholder; the empty string is falsy in Python and also maps to it.
* The two effectful boundaries are oracle parameters: `GenEnv.upstream`
  models the OpenAI chat-completion call (`none` = exception), and the batch
  loop takes `fetch : String → Option TicketDetails` modelling
  `get_ticket_details(jira, key)` over the network.
* The session store is an association list with first-match lookup; Python
  dict assignment `d[k] = v` is modelled by consing `(k, v)`, which overwrites
  under lookup.
-/

namespace TestCaseGen

/-! ### Python string primitives -/

/-- Python `s.split(sep)` on character lists: splitting the empty string gives
`[""]`, separators at the ends give empty parts. -/
def splitChar (sep : Char) : List Char → List (List Char)
  | [] => [[]]
  | c :: cs =>
    if c = sep then
      [] :: splitChar sep cs
    else
      match splitChar sep cs with
      | [] => [[c]]
      | p :: ps => (c :: p) :: ps

/-- Python `s.split(sep)` for strings. -/
def pySplit (sep : Char) (s : String) : List String :=
  (splitChar sep s.data).map String.mk

/-- Python `s.strip()`: drop whitespace from both ends. -/
def pyStrip (s : String) : String :=
  String.mk (((s.data.dropWhile Char.isWhitespace).reverse.dropWhile Char.isWhitespace).reverse)

/-- Python `s.lower()` (ASCII case folding, which is all the probe needs). -/
def pyLower (s : String) : String :=
  String.mk (s.data.map Char.toLower)

/-- Does the second list start with the first? -/
def startsWithChars : List Char → List Char → Bool
  | [], _ => true
  | _ :: _, [] => false
  | a :: as, b :: bs => a = b && startsWithChars as bs

/-- Python `needle in hay` on character lists: contiguous substring test. -/
def containsChars (needle : List Char) : List Char → Bool
  | [] => needle.isEmpty
  | c :: cs => startsWithChars needle (c :: cs) || containsChars needle cs

/-! ### Data model -/

/-- The `details` dict built by `get_ticket_details` (and, with `none` in the
slots the manual paths do not fill, the manually entered ticket dicts).
`status`, `created`, `updated` are absent from manually entered tickets and
unused by the prompt, hence `Option`. -/
structure TicketDetails where
  key : String
  summary : String
  description : String
  status : Option String
  issue_type : String
  priority : String
  components : List String
  created : Option String
  updated : Option String
  acceptance_criteria : String
deriving DecidableEq, Repr

/-- A raw Jira issue as seen by `get_ticket_details`: `key` plus the fields
object.  `none` = field missing (see the header comment).  `priority` is the
priority name when the attribute exists and is non-null (the code checks
`hasattr` and truthiness); `components` is the list of component names when
the attribute exists; `custom` is the string-valued custom-field map probed
with `getattr` (non-string values never pass the `isinstance` check, so they
are behaviourally identical to absent ones). -/
structure RawIssue where
  key : Option String
  summary : Option String
  description : Option String
  status : Option String
  issuetype : Option String
  priority : Option String
  components : Option (List String)
  created : Option String
  updated : Option String
  custom : List (String × String)
deriving Repr

/-! ### Acceptance-criteria probing (src/main.py lines 140-155) -/

/-- The fixed probe order of custom-field identifiers. -/
def custom_field_names : List String :=
  ["customfield_10000", "customfield_10001", "customfield_10002",
   "customfield_10003", "customfield_10004", "customfield_10005"]

/-- `getattr(issue.fields, field_name, None)` over the custom-field map. -/
def getCustomField (cf : List (String × String)) (name : String) : Option String :=
  match cf with
  | [] => none
  | (k, v) :: rest => if k = name then some v else getCustomField rest name

/-- The loop guard `value and (isinstance(value, str) and 'accept' in
value.lower())` for a string value: truthiness plus case-insensitive
substring test. -/
def acceptGuard (v : String) : Bool :=
  decide (v ≠ "") && containsChars "accept".data (pyLower v).data

/-- The `for field_name in custom_field_names` loop: first probed field whose
value passes the guard wins; otherwise keep the placeholder. -/
def probeAcceptance (cf : List (String × String)) : List String → String
  | [] => "No acceptance criteria provided"
  | name :: rest =>
    match getCustomField cf name with
    | some v => if acceptGuard v then v else probeAcceptance cf rest
    | none => probeAcceptance cf rest

/-! ### Ticket normalizer `get_ticket_details` (src/main.py lines 119-160) -/

/-- `get_ticket_details`: the field-extraction block.  `key`, `summary`,
`status.name`, `issuetype.name`, `created`, `updated` are accessed without
any guard — a missing one raises and the `except` handler returns `None`.
`description` falls back to the placeholder when null/empty, `priority` to
"Not set", `components` to `[]`. -/
def get_ticket_details (issue : RawIssue) : Option TicketDetails :=
  match issue.key, issue.summary, issue.status, issue.issuetype,
        issue.created, issue.updated with
  | some k, some s, some stat, some itype, some cr, some up =>
    some
      { key := k
        summary := s
        description :=
          match issue.description with
          | none => "No description provided"
          | some d => if d = "" then "No description provided" else d
        status := some stat
        issue_type := itype
        priority := issue.priority.getD "Not set"
        components := issue.components.getD []
        created := some cr
        updated := some up
        acceptance_criteria := probeAcceptance issue.custom custom_field_names }
  | _, _, _, _, _, _ => none

/-! ### Prompt builder (src/main.py lines 176-206) -/

/-- `components_str = ", ".join(...) if ticket_details['components'] else
"No components"`. -/
def components_str (cs : List String) : String :=
  if cs = [] then "No components" else String.intercalate ", " cs

/-- Concatenation of a list of string segments (the f-string is the
concatenation of its literal pieces and interpolated fields). -/
def strConcat : List String → String
  | [] => ""
  | s :: rest => s ++ strConcat rest

/-- The segments of the f-string `prompt` in `generate_test_cases`, in source
order; concatenating them yields exactly the Python prompt text (the
triple-quoted string starts with a newline and every line carries the
source's four-space indentation). -/
def promptParts (t : TicketDetails) : List String :=
  [ "\n    You are an expert QA engineer. Based on the following Jira ticket details, generate a comprehensive set of test cases.\n\n    TICKET KEY: ",
    t.key,
    "\n    SUMMARY: ",
    t.summary,
    "\n    DESCRIPTION: ",
    t.description,
    "\n    ISSUE TYPE: ",
    t.issue_type,
    "\n    PRIORITY: ",
    t.priority,
    "\n    COMPONENTS: ",
    components_str t.components,
    "\n    ACCEPTANCE CRITERIA: ",
    t.acceptance_criteria,
    "\n\n    For each test case, provide:\n    ",
    "1. Test case ID (TC-XX format)",
    "\n    ",
    "2. Test objective",
    "\n    ",
    "3. Preconditions",
    "\n    ",
    "4. Test steps (numbered)",
    "\n    ",
    "5. Expected results",
    "\n    ",
    "6. Priority (High/Medium/Low)",
    "\n\n    Cover the following:\n    ",
    "- Positive test cases (valid inputs/scenarios)",
    "\n    ",
    "- Negative test cases (invalid inputs/error handling)",
    "\n    ",
    "- Edge cases and boundary values",
    "\n    ",
    "- Performance considerations (if applicable)",
    "\n    ",
    "- Security aspects (if applicable)",
    "\n    ",
    "- Integration points with other components",
    "\n\n    Format the test cases clearly with proper categorization using markdown.\n    " ]

/-- The prompt string built by `generate_test_cases`. -/
def build_prompt (t : TicketDetails) : String :=
  strConcat (promptParts t)

/-! ### Generation client (src/main.py lines 163-221) -/

/-- Environment of one `generate_test_cases` call: the API key (empty string
is falsy, so `if not openai_api_key: return None`), whether
`openai.OpenAI(api_key=...)` constructs without raising, and the upstream
chat-completion call as an oracle from the prompt to the returned message
content (`none` = the call raised, caught and turned into `return None`). -/
structure GenEnv where
  apiKey : String
  clientInitOk : Bool
  upstream : String → Option String

/-- `generate_test_cases(ticket_details, openai_api_key, model)`:
`none` models Python `None` (the three error returns), `some s` the returned
completion text. -/
def generate_test_cases (env : GenEnv) (t : TicketDetails) : Option String :=
  if env.apiKey = "" then none
  else if env.clientInitOk = false then none
  else env.upstream (build_prompt t)

/-! ### Session store `st.session_state.generated_test_cases` -/

/-- The session-scoped dict from ticket key to generated text, as an
association list with first-match lookup; dict assignment conses, which
overwrites under lookup. -/
abbrev Store := List (String × String)

/-- Dict lookup. -/
def store_find (st : Store) (key : String) : Option String :=
  match st with
  | [] => none
  | (k, v) :: rest => if k = key then some v else store_find rest key

/-- The pattern `test_cases = generate_test_cases(...)` followed by
`if test_cases: st.session_state.generated_test_cases[key] = test_cases`
shared by tab3 and both batch loops: a `None` or empty (falsy) result stores
nothing. -/
def storeIfTruthy (st : Store) (key : String) : Option String → Store
  | some tc => if tc = "" then st else (key, tc) :: st
  | none => st

/-! ### Batch loops (src/main.py lines 483-513 and 554-563) -/

/-- The fixed manual-batch ticket dict built for a well-formed line
(src/main.py lines 496-504). -/
def manual_batch_ticket (key summary description : String) : TicketDetails :=
  { key := key
    summary := summary
    description := description
    status := none
    issue_type := "Story"
    priority := "Medium"
    components := []
    created := none
    updated := none
    acceptance_criteria := "Not provided" }

/-- One iteration of the manual-input batch loop.  The accumulator carries
the store and the list of keys for which a generation attempt was made.
`parts = line.split('|')`; only lines with at least 3 parts build a ticket
and call `generate_test_cases`; others fall through to the progress update. -/
def process_line (env : GenEnv) (acc : Store × List String) (line : String) :
    Store × List String :=
  let parts := pySplit '|' line
  if 3 ≤ parts.length then
    let t := manual_batch_ticket (pyStrip (parts.getD 0 ""))
      (pyStrip (parts.getD 1 "")) (pyStrip (parts.getD 2 ""))
    (storeIfTruthy acc.1 t.key (generate_test_cases env t), acc.2 ++ [t.key])
  else acc

/-- The manual-input batch loop:
`lines = batch_descriptions.strip().split('\n')` then the `for` loop over
`lines`.  Returns the final store and the attempted keys in order. -/
def run_manual_batch (env : GenEnv) (input : String) (st : Store) :
    Store × List String :=
  (pySplit '\n' (pyStrip input)).foldl (process_line env) (st, [])

/-- One iteration of the Jira-tickets batch loop: fetch the details
(`fetch` models `get_ticket_details(jira, ticket_key)` over the network,
`none` = fetch failure), generate when the fetch succeeded, store when the
result is truthy, and in every case continue. -/
def process_ticket (fetch : String → Option TicketDetails) (env : GenEnv)
    (st : Store) (key : String) : Store :=
  match fetch key with
  | none => st
  | some td => storeIfTruthy st key (generate_test_cases env td)

/-- The Jira-tickets batch loop over the selected keys, in order. -/
def run_jira_batch (fetch : String → Option TicketDetails) (env : GenEnv)
    (keys : List String) (st : Store) : Store :=
  keys.foldl (process_ticket fetch env) st

/-! ### Concrete fixtures used to instantiate the theorems -/

/-- A generation environment whose upstream call always succeeds with the
text "TC". -/
def envOK : GenEnv := ⟨"sk", true, fun _ => some "TC"⟩

/-- A generation environment whose upstream call succeeds but returns the
empty string. -/
def envEmptyResult : GenEnv := ⟨"sk-key", true, fun _ => some ""⟩

/-- A generation environment with no API key configured. -/
def envNoKey : GenEnv := ⟨"", true, fun _ => none⟩

/-- A fetch oracle that fails on ticket "T3" and succeeds elsewhere. -/
def fetchFail3 : String → Option TicketDetails :=
  fun k => if k = "T3" then none else some (manual_batch_ticket k "s" "d")

/-- A raw issue with all required fields present and all optional ones
missing. -/
def sampleIssue : RawIssue :=
  ⟨some "PROJ-1", some "Add login", none, some "Open", some "Story",
   none, none, some "2024-01-01", some "2024-01-02", []⟩

/-- A raw issue whose `key` is present but whose `summary` is missing. -/
def keyOnlyIssue : RawIssue :=
  ⟨some "PROJ-1", none, some "desc", some "Open", some "Story",
   some "High", some ["Auth"], some "2024-01-01", some "2024-01-02", []⟩

/-- A raw issue missing the three optional fields (priority, components,
description) and also the required `summary`. -/
def bareIssue : RawIssue :=
  ⟨some "PROJ-2", none, none, some "Open", some "Story",
   none, none, some "2024-01-01", some "2024-01-02", []⟩

/-! ### Helper lemmas -/

theorem mk_data (s : String) : String.mk s.data = s := rfl

theorem data_infix_strConcat {s : String} {l : List String} (h : s ∈ l) :
    s.data <:+: (strConcat l).data := by
  induction l with
  | nil => cases h
  | cons a rest ih =>
    rcases List.mem_cons.mp h with rfl | h2
    · exact ⟨[], (strConcat rest).data, by simp [strConcat, String.data_append]⟩
    · rcases ih h2 with ⟨p, q, hpq⟩
      exact ⟨a.data ++ p, q, by
        simp [strConcat, String.data_append, ← hpq, List.append_assoc]⟩

theorem acceptGuard_eq (v : String) :
    acceptGuard v = containsChars "accept".data (pyLower v).data := by
  by_cases h : v = ""
  · subst h; decide
  · simp [acceptGuard, h]

theorem probe_eq_findSome (cf : List (String × String)) (names : List String) :
    probeAcceptance cf names =
      (names.findSome? (fun name =>
        match getCustomField cf name with
        | some v =>
          if containsChars "accept".data (pyLower v).data then some v else none
        | none => none)).getD "No acceptance criteria provided" := by
  induction names with
  | nil => rfl
  | cons n rest ih =>
    cases hga : getCustomField cf n with
    | none => simp [probeAcceptance, List.findSome?_cons, hga, ih]
    | some v =>
      simp only [probeAcceptance, hga, acceptGuard_eq]
      cases hc : containsChars "accept".data (pyLower v).data
      · simpa [List.findSome?_cons, hga, hc] using ih
      · simp [List.findSome?_cons, hga, hc]

theorem splitChar_ne_nil (sep : Char) (l : List Char) : splitChar sep l ≠ [] := by
  induction l with
  | nil => simp [splitChar]
  | cons c cs ih =>
    by_cases h : c = sep
    · simp [splitChar, h]
    · simp only [splitChar, if_neg h]
      cases hs : splitChar sep cs with
      | nil => exact absurd hs ih
      | cons p ps => simp

theorem splitChar_append (sep : Char) (xs ys : List Char) (h : sep ∉ xs) :
    splitChar sep (xs ++ sep :: ys) = xs :: splitChar sep ys := by
  induction xs with
  | nil => simp [splitChar]
  | cons x xs ih =>
    have hx : x ≠ sep := fun e => h (by simp [e])
    have h2 : sep ∉ xs := fun m => h (List.mem_cons_of_mem _ m)
    simp [splitChar, hx, ih h2]

theorem build_prompt_ne_empty (t : TicketDetails) : build_prompt t ≠ "" := by
  intro h
  have hinf : ("\n\n    For each test case, provide:\n    ").data
      <:+: (build_prompt t).data :=
    data_infix_strConcat (by simp [promptParts])
  rw [h] at hinf
  exact absurd hinf (by decide)

theorem process_ticket_of_fails {fetch : String → Option TicketDetails}
    {env : GenEnv} {key : String}
    (h : fetch key = none ∨ ∃ td, fetch key = some td ∧
      (generate_test_cases env td = none ∨ generate_test_cases env td = some ""))
    (st : Store) : process_ticket fetch env st key = st := by
  rcases h with h | ⟨td, htd, hg | hg⟩
  · simp [process_ticket, h]
  · simp [process_ticket, htd, hg, storeIfTruthy]
  · simp [process_ticket, htd, hg, storeIfTruthy]

theorem foldl_process_line_attempts (env : GenEnv) (lines : List String)
    (st : Store) (a : List String) :
    ((lines.foldl (process_line env) (st, a)).2).length =
      a.length + lines.countP (fun line => decide (3 ≤ (pySplit '|' line).length)) := by
  induction lines generalizing st a with
  | nil => simp
  | cons l rest ih =>
    simp only [List.foldl_cons, List.countP_cons]
    by_cases h : 3 ≤ (pySplit '|' l).length
    · simp only [process_line, if_pos h]
      rw [ih]
      simp [h]
      omega
    · simp only [process_line, if_neg h]
      rw [ih]
      simp [h]

theorem storeIfTruthy_inv {st : Store} (key : String) (res : Option String)
    (hinv : ∀ k v, store_find st k = some v → v ≠ "") :
    ∀ k v, store_find (storeIfTruthy st key res) k = some v → v ≠ "" := by
  cases res with
  | none => exact hinv
  | some tc =>
    by_cases htc : tc = ""
    · simpa [storeIfTruthy, htc] using hinv
    · intro k v hfind
      simp only [storeIfTruthy, if_neg htc, store_find] at hfind
      by_cases hk : key = k
      · rw [if_pos hk] at hfind
        cases hfind
        exact htc
      · rw [if_neg hk] at hfind
        exact hinv k v hfind

/-! ### Claim theorems -/

/-- C1: for every raw ticket record, acceptance-criteria extraction probes
the fixed identifiers customfield_10000 … customfield_10005 in order and
returns the value of the first field whose string value contains the
case-insensitive substring "accept"; if no probed field matches, it returns
the placeholder "No acceptance criteria provided".  (The code's extra
truthiness test is redundant: an empty value cannot contain "accept".) -/
theorem acceptance_probe_first_match (cf : List (String × String)) :
    probeAcceptance cf custom_field_names =
      (List.findSome? (fun name =>
          match getCustomField cf name with
          | some v =>
            if containsChars "accept".data (pyLower v).data then some v else none
          | none => none)
        ["customfield_10000", "customfield_10001", "customfield_10002",
         "customfield_10003", "customfield_10004", "customfield_10005"]).getD
        "No acceptance criteria provided" :=
  probe_eq_findSome cf custom_field_names

/-- C2: for every TicketDetail input, the prompt is a non-empty string
containing the ticket key and every populated field's text verbatim, with
the components rendered as the sequence joined by ", " or the literal
"No components" when the sequence is empty. -/
theorem prompt_embeds_fields (t : TicketDetails) :
    build_prompt t ≠ "" ∧
    t.key.data <:+: (build_prompt t).data ∧
    t.summary.data <:+: (build_prompt t).data ∧
    t.description.data <:+: (build_prompt t).data ∧
    t.issue_type.data <:+: (build_prompt t).data ∧
    t.priority.data <:+: (build_prompt t).data ∧
    t.acceptance_criteria.data <:+: (build_prompt t).data ∧
    (if t.components = [] then "No components"
     else String.intercalate ", " t.components).data <:+: (build_prompt t).data := by
  refine ⟨build_prompt_ne_empty t, ?_, ?_, ?_, ?_, ?_, ?_, ?_⟩ <;>
    · apply data_infix_strConcat
      simp [promptParts, components_str]

/-- C6: the fixed instruction block appended by the prompt builder requests,
per test case, an identifier (the literal phrase is "Test case ID (TC-XX
format)"), an objective, preconditions, numbered steps, expected results and
a High/Medium/Low priority, and requests coverage of positive, negative,
edge/boundary, performance, security and integration-point categories. -/
theorem prompt_instruction_block (t : TicketDetails) :
    ("1. Test case ID (TC-XX format)").data <:+: (build_prompt t).data ∧
    ("2. Test objective").data <:+: (build_prompt t).data ∧
    ("3. Preconditions").data <:+: (build_prompt t).data ∧
    ("4. Test steps (numbered)").data <:+: (build_prompt t).data ∧
    ("5. Expected results").data <:+: (build_prompt t).data ∧
    ("6. Priority (High/Medium/Low)").data <:+: (build_prompt t).data ∧
    ("- Positive test cases (valid inputs/scenarios)").data <:+: (build_prompt t).data ∧
    ("- Negative test cases (invalid inputs/error handling)").data <:+: (build_prompt t).data ∧
    ("- Edge cases and boundary values").data <:+: (build_prompt t).data ∧
    ("- Performance considerations (if applicable)").data <:+: (build_prompt t).data ∧
    ("- Security aspects (if applicable)").data <:+: (build_prompt t).data ∧
    ("- Integration points with other components").data <:+: (build_prompt t).data := by
  refine ⟨?_, ?_, ?_, ?_, ?_, ?_, ?_, ?_, ?_, ?_, ?_, ?_⟩ <;>
    · apply data_infix_strConcat
      simp [promptParts]

/-- C5 counterexample: the claim quantifies over every raw record missing
priority (resp. components, description) and asserts the normalizer yields
the defaults and does not fail.  This record misses all three optional
fields, yet `get_ticket_details` returns `None` (its `summary` is also
missing, and the unguarded access raises): the unrestricted claim is false. -/
theorem normalizer_optional_missing_still_fails_cex :
    bareIssue.priority = none ∧ bareIssue.components = none ∧
    bareIssue.description = none ∧ get_ticket_details bareIssue = none :=
  ⟨rfl, rfl, rfl, rfl⟩

/-- C5 amended: for every raw record whose required fields (key, summary,
status, issue type, created, updated) are present, a missing priority yields
"Not set", missing components yield the empty list, a missing description
yields "No description provided", and in all three cases the normalizer does
not fail. -/
theorem normalizer_optional_defaults (issue : RawIssue)
    (hk : issue.key.isSome = true) (hs : issue.summary.isSome = true)
    (hst : issue.status.isSome = true) (hit : issue.issuetype.isSome = true)
    (hcr : issue.created.isSome = true) (hup : issue.updated.isSome = true) :
    ∃ d, get_ticket_details issue = some d ∧
      (issue.priority = none → d.priority = "Not set") ∧
      (issue.components = none → d.components = []) ∧
      (issue.description = none → d.description = "No description provided") := by
  rcases issue with ⟨k, s, desc, stat, it, p, c, cr, up, cf⟩
  rcases Option.isSome_iff_exists.mp hk with ⟨kv, rfl⟩
  rcases Option.isSome_iff_exists.mp hs with ⟨sv, rfl⟩
  rcases Option.isSome_iff_exists.mp hst with ⟨stv, rfl⟩
  rcases Option.isSome_iff_exists.mp hit with ⟨itv, rfl⟩
  rcases Option.isSome_iff_exists.mp hcr with ⟨crv, rfl⟩
  rcases Option.isSome_iff_exists.mp hup with ⟨upv, rfl⟩
  refine ⟨_, rfl, fun hp => ?_, fun hc => ?_, fun hd => ?_⟩
  · simp only at hp
    simp [hp]
  · simp only at hc
    simp [hc]
  · simp only at hd
    simp [hd]

/-- C5 witness: a record with all required fields present and priority,
components and description all missing. -/
theorem normalizer_optional_defaults_witness :
    ∃ d, get_ticket_details sampleIssue = some d ∧
      (sampleIssue.priority = none → d.priority = "Not set") ∧
      (sampleIssue.components = none → d.components = []) ∧
      (sampleIssue.description = none → d.description = "No description provided") :=
  normalizer_optional_defaults sampleIssue rfl rfl rfl rfl rfl rfl

/-- C7 counterexample: a raw record whose `key` is present but whose
`summary` is missing makes `get_ticket_details` fail (the unguarded
attribute access raises and the handler returns `None`), contradicting the
claim that normalization fails only when `key` is missing. -/
theorem normalizer_requires_more_than_key_cex :
    keyOnlyIssue.key.isSome = true ∧ get_ticket_details keyOnlyIssue = none :=
  ⟨rfl, rfl⟩

/-- C7 amended: normalization succeeds exactly when `key`, `summary`,
`status`, `issuetype`, `created` and `updated` are all present; only
`description`, `priority`, `components` and the acceptance criteria default
instead of failing. -/
theorem normalizer_success_characterization (issue : RawIssue) :
    (get_ticket_details issue).isSome = true ↔
      (issue.key.isSome = true ∧ issue.summary.isSome = true ∧
       issue.status.isSome = true ∧ issue.issuetype.isSome = true ∧
       issue.created.isSome = true ∧ issue.updated.isSome = true) := by
  rcases issue with ⟨k, s, d, stat, it, p, c, cr, up, cf⟩
  cases k <;> cases s <;> cases stat <;> cases it <;> cases cr <;> cases up <;>
    simp [get_ticket_details]

/-- C3: in the free-text batch entry point, every line splits on "|"; a line
with at least 3 parts produces exactly one generation attempt, a line with
fewer than 3 parts is skipped without an attempt and without failing the
batch, and for 5 well-formed lines plus 1 malformed line exactly 5 attempts
occur. -/
theorem manual_batch_attempt_count :
    (∀ env input st,
      (run_manual_batch env input st).2.length =
        (pySplit '\n' (pyStrip input)).countP
          (fun line => decide (3 ≤ (pySplit '|' line).length))) ∧
    (∀ env acc line, (pySplit '|' line).length < 3 → process_line env acc line = acc) ∧
    (run_manual_batch envOK
      "T1 | s1 | d1\nT2 | s2 | d2\nT3 | s3 | d3\nT4 | s4 | d4\nT5 | s5 | d5\nmalformed line"
      []).2.length = 5 := by
  refine ⟨fun env input st => ?_, fun env acc line h => ?_, by decide⟩
  · simpa using foldl_process_line_attempts env (pySplit '\n' (pyStrip input)) st []
  · simp [process_line, Nat.not_le.mpr h]

/-- C3 witness: a malformed line (2 pipe-delimited parts) is skipped and
leaves the accumulator untouched. -/
theorem manual_batch_attempt_count_witness :
    process_line envOK ([], []) "only | two" = ([], []) :=
  manual_batch_attempt_count.2.1 envOK ([], []) "only | two" (by decide)

/-- C4: in the Jira-tickets batch loop, a failure on one item (ticket-detail
fetch failure, generation failure, or an untruthy generation result) leaves
the store unchanged for that item only: processing continues with the
remaining items exactly as if the failing item were absent, and a later item
that succeeds is stored. -/
theorem jira_batch_isolates_failures (fetch : String → Option TicketDetails)
    (env : GenEnv) :
    (∀ st l₁ key l₂,
      (fetch key = none ∨ ∃ td, fetch key = some td ∧
        (generate_test_cases env td = none ∨ generate_test_cases env td = some "")) →
      run_jira_batch fetch env (l₁ ++ key :: l₂) st =
        run_jira_batch fetch env (l₁ ++ l₂) st) ∧
    (∀ st l key td s, fetch key = some td → generate_test_cases env td = some s →
      s ≠ "" → store_find (run_jira_batch fetch env (l ++ [key]) st) key = some s) := by
  constructor
  · intro st l₁ key l₂ h
    simp [run_jira_batch, List.foldl_append, process_ticket_of_fails h]
  · intro st l key td s hf hg hs
    simp [run_jira_batch, List.foldl_append, process_ticket, hf, hg,
      storeIfTruthy, hs, store_find]

/-- C4 witness: in a 5-item batch whose third item fails to fetch, items 4
and 5 are still processed (the run equals the run without item 3), and the
last item of a batch that generates successfully is recorded. -/
theorem jira_batch_isolates_failures_witness :
    run_jira_batch fetchFail3 envOK (["T1", "T2"] ++ "T3" :: ["T4", "T5"]) [] =
      run_jira_batch fetchFail3 envOK (["T1", "T2"] ++ ["T4", "T5"]) [] ∧
    store_find (run_jira_batch fetchFail3 envOK (["T1", "T2", "T4"] ++ ["T5"]) []) "T5" =
      some "TC" :=
  ⟨(jira_batch_isolates_failures fetchFail3 envOK).1 [] ["T1", "T2"] "T3" ["T4", "T5"]
      (Or.inl (by decide)),
    (jira_batch_isolates_failures fetchFail3 envOK).2 [] ["T1", "T2", "T4"] "T5"
      (manual_batch_ticket "T5" "s" "d") "TC" (by decide) rfl (by decide)⟩

/-- C8 counterexample: an upstream call that returns the empty string is a
successful generation call (none of the claim's failure modes occurred),
yet the truthiness test `if test_cases:` stores nothing, so the store entry
is not created "exactly when" the call succeeds. -/
theorem store_update_iff_success_cex :
    generate_test_cases envEmptyResult (manual_batch_ticket "K1" "s" "d") = some "" ∧
    storeIfTruthy [] "K1"
      (generate_test_cases envEmptyResult (manual_batch_ticket "K1" "s" "d")) = [] :=
  ⟨rfl, rfl⟩

/-- C8 amended: the store entry for a key is created or overwritten exactly
when the generation call for that key succeeds with non-empty text; when the
call fails (missing API key, client-initialization error, upstream error) or
returns empty text, the store — including any previously stored record under
that key — is unchanged. -/
theorem store_update_on_truthy_success (env : GenEnv) (t : TicketDetails)
    (st : Store) (key : String) :
    (generate_test_cases env t = none ∨ generate_test_cases env t = some "" →
      storeIfTruthy st key (generate_test_cases env t) = st) ∧
    (∀ s, generate_test_cases env t = some s → s ≠ "" →
      store_find (storeIfTruthy st key (generate_test_cases env t)) key = some s ∧
      ∀ k', k' ≠ key →
        store_find (storeIfTruthy st key (generate_test_cases env t)) k' =
          store_find st k') ∧
    (env.apiKey = "" → generate_test_cases env t = none) ∧
    (env.clientInitOk = false → generate_test_cases env t = none) ∧
    (env.upstream (build_prompt t) = none → generate_test_cases env t = none) := by
  refine ⟨fun h => ?_, fun s hg hs => ⟨?_, fun k' hk' => ?_⟩, fun h => ?_, fun h => ?_,
    fun h => ?_⟩
  · rcases h with h | h <;> simp [h, storeIfTruthy]
  · simp [hg, storeIfTruthy, hs, store_find]
  · simp [hg, storeIfTruthy, hs, store_find, if_neg (Ne.symm hk')]
  · simp [generate_test_cases, h]
  · simp [generate_test_cases, h]
  · simp [generate_test_cases, h]

/-- C8 witness: a non-empty successful generation overwrites the existing
record under the key, and a failed generation (missing API key) leaves the
previously stored record unchanged. -/
theorem store_update_on_truthy_success_witness :
    store_find (storeIfTruthy [("K", "old")] "K"
      (generate_test_cases envOK (manual_batch_ticket "K" "s" "d"))) "K" = some "TC" ∧
    storeIfTruthy [("K", "old")] "K"
      (generate_test_cases envNoKey (manual_batch_ticket "K" "s" "d")) = [("K", "old")] :=
  ⟨((store_update_on_truthy_success envOK (manual_batch_ticket "K" "s" "d")
      [("K", "old")] "K").2.1 "TC" rfl (by decide)).1,
    (store_update_on_truthy_success envNoKey (manual_batch_ticket "K" "s" "d")
      [("K", "old")] "K").1 (Or.inl rfl)⟩

/-- C9: a free-text batch line with more than three pipe-delimited parts
uses only its first three segments (key, summary, description, each
stripped); everything after the third "|" — in particular the tail of a
description containing "|" — is discarded. -/
theorem manual_line_uses_first_three_parts (a b c rest : String) (env : GenEnv)
    (acc : Store × List String)
    (ha : '|' ∉ a.data) (hb : '|' ∉ b.data) (hc : '|' ∉ c.data) :
    process_line env acc (a ++ "|" ++ b ++ "|" ++ c ++ "|" ++ rest) =
      (storeIfTruthy acc.1 (pyStrip a)
        (generate_test_cases env
          (manual_batch_ticket (pyStrip a) (pyStrip b) (pyStrip c))),
       acc.2 ++ [pyStrip a]) := by
  have hdata : (a ++ "|" ++ b ++ "|" ++ c ++ "|" ++ rest).data
      = a.data ++ '|' :: (b.data ++ '|' :: (c.data ++ '|' :: rest.data)) := by
    simp [String.data_append, show ("|" : String).data = ['|'] from rfl]
  have hsplit : pySplit '|' (a ++ "|" ++ b ++ "|" ++ c ++ "|" ++ rest)
      = a :: b :: c :: (splitChar '|' rest.data).map String.mk := by
    rw [pySplit, hdata, splitChar_append _ _ _ ha, splitChar_append _ _ _ hb,
      splitChar_append _ _ _ hc]
    simp [mk_data]
  simp only [process_line, hsplit]
  rw [if_pos (by simp)]
  rfl

/-- C9 witness: a line whose description segment contains a "|" is truncated
at that character. -/
theorem manual_line_uses_first_three_parts_witness :
    process_line envOK ([], []) ("TICKET-9" ++ "|" ++ " Summary " ++ "|" ++ " Desc " ++ "|" ++ " tail | more") =
      (storeIfTruthy [] (pyStrip "TICKET-9")
        (generate_test_cases envOK
          (manual_batch_ticket (pyStrip "TICKET-9") (pyStrip " Summary ") (pyStrip " Desc "))),
       [] ++ [pyStrip "TICKET-9"]) :=
  manual_line_uses_first_three_parts "TICKET-9" " Summary " " Desc " " tail | more"
    envOK ([], []) (by decide) (by decide) (by decide)

/-- C10: every value stored in the session map is a non-empty string — the
single store operation and both batch loops preserve the invariant, and a
generation result that is the empty string stores nothing. -/
theorem store_values_nonempty :
    (∀ st key res, (∀ k v, store_find st k = some v → v ≠ "") →
      ∀ k v, store_find (storeIfTruthy st key res) k = some v → v ≠ "") ∧
    (∀ st key, storeIfTruthy st key (some "") = st) ∧
    (∀ fetch env keys st, (∀ k v, store_find st k = some v → v ≠ "") →
      ∀ k v, store_find (run_jira_batch fetch env keys st) k = some v → v ≠ "") ∧
    (∀ env input st, (∀ k v, store_find st k = some v → v ≠ "") →
      ∀ k v, store_find (run_manual_batch env input st).1 k = some v → v ≠ "") := by
  have hjira : ∀ (fetch : String → Option TicketDetails) (env : GenEnv)
      (keys : List String) (st : Store),
      (∀ k v, store_find st k = some v → v ≠ "") →
      ∀ k v, store_find (run_jira_batch fetch env keys st) k = some v → v ≠ "" := by
    intro fetch env keys
    induction keys with
    | nil => intro st h; exact h
    | cons key rest ih =>
      intro st h
      simp only [run_jira_batch, List.foldl_cons]
      apply ih
      unfold process_ticket
      cases fetch key with
      | none => exact h
      | some td => exact storeIfTruthy_inv key _ h
  have hmanual : ∀ (env : GenEnv) (lines : List String) (st : Store) (a : List String),
      (∀ k v, store_find st k = some v → v ≠ "") →
      ∀ k v, store_find (lines.foldl (process_line env) (st, a)).1 k = some v → v ≠ "" := by
    intro env lines
    induction lines with
    | nil => intro st a h; exact h
    | cons l rest ih =>
      intro st a h
      simp only [List.foldl_cons]
      by_cases hl : 3 ≤ (pySplit '|' l).length
      · simp only [process_line, if_pos hl]
        exact ih _ _ (storeIfTruthy_inv _ _ h)
      · simp only [process_line, if_neg hl]
        exact ih _ _ h
  exact ⟨fun st key res h => storeIfTruthy_inv key res h,
    fun st key => rfl,
    hjira,
    fun env input st h => hmanual env _ st [] h⟩

/-- C10 witness: the invariant holds after storing a non-empty result on top
of a store that satisfies it. -/
theorem store_values_nonempty_witness :
    ∀ k v, store_find (storeIfTruthy [("A", "x")] "K" (some "TC")) k = some v → v ≠ "" :=
  store_values_nonempty.1 [("A", "x")] "K" (some "TC")
    (fun k v h => by
      by_cases hk : "A" = k
      · simp only [store_find, if_pos hk] at h
        cases h
        decide
      · simp only [store_find, if_neg hk] at h
        cases h)

end TestCaseGen
